import Mathlib

/-!
Shallow embedding of the urban-microbiome API (FastAPI service):
`app/utils/security.py` (RateLimiter, APIKeyManager), `app/utils/analysis.py`
(analyze_microbiome_sample), `app/utils/monitoring.py` (PerformanceMonitor),
and the endpoint logic of `app/main.py` (get_api_key, analyze_sample,
stripe_webhook, global_exception_handler).

Python floats are modelled as rationals; `datetime` values as explicit
year/month/day/hour/minute/second/microsecond records with the lexicographic
order that Python's `datetime` comparison uses; Python dicts as association
lists with first-match lookup and in-place overwrite; randomness
(`np.random.uniform`, `secrets.token_urlsafe`) as explicit input parameters;
raised `HTTPException`s as `Except` errors carrying status code and detail.
-/

namespace UrbanMicrobiome

/-- Association-list lookup: models Python `d[k]` / `k in d` on dicts. -/
def lookupAssoc {κ α : Type} [DecidableEq κ] : List (κ × α) → κ → Option α
  | [], _ => none
  | (k', v) :: rest, k => if k' = k then some v else lookupAssoc rest k

/-- Association-list store: models Python `d[k] = v` (overwrite if present,
append otherwise). -/
def insertAssoc {κ α : Type} [DecidableEq κ] : List (κ × α) → κ → α → List (κ × α)
  | [], k, v => [(k, v)]
  | (k', v') :: rest, k, v =>
      if k' = k then (k, v) :: rest else (k', v') :: insertAssoc rest k v

/-- `PlanTier` enum from `app/models.py`. -/
inductive PlanTier
  | basic
  | pro
  | enterprise
deriving DecidableEq

/-- A UTC timestamp, with the component fields of Python's `datetime`. -/
structure DateTime where
  year : Nat
  month : Nat
  day : Nat
  hour : Nat
  minute : Nat
  second : Nat
  microsecond : Nat
deriving DecidableEq

/-- Python `datetime` comparison: lexicographic on the component fields,
microseconds included. -/
def DateTime.lt (a b : DateTime) : Bool :=
  if a.year ≠ b.year then decide (a.year < b.year)
  else if a.month ≠ b.month then decide (a.month < b.month)
  else if a.day ≠ b.day then decide (a.day < b.day)
  else if a.hour ≠ b.hour then decide (a.hour < b.hour)
  else if a.minute ≠ b.minute then decide (a.minute < b.minute)
  else if a.second ≠ b.second then decide (a.second < b.second)
  else decide (a.microsecond < b.microsecond)

/-- `datetime.utcnow().replace(day=1, hour=0, minute=0, second=0)` from
`RateLimiter.check_rate_limit` (security.py line 43).  Note that `replace`
changes only the named fields, so the microsecond of the current time is
KEPT, exactly as in the source. -/
def DateTime.monthFloor (d : DateTime) : DateTime :=
  { d with day := 1, hour := 0, minute := 0, second := 0 }

/-- `APIKeyModel` as constructed and consumed by `APIKeyManager`
(security.py lines 64-71) and `main.py`. -/
structure APIKeyModel where
  key : String
  user_id : String
  plan : PlanTier
  created_at : DateTime
  is_active : Bool
  last_used : Option DateTime
deriving DecidableEq

/-- `RateLimiter.limits` (security.py lines 31-35): fixed monthly request
quotas per plan. -/
def limits : PlanTier → Nat
  | .basic => 1000
  | .pro => 5000
  | .enterprise => 50000

/-- One entry of `RateLimiter.requests`: the dict
`\x7b"count": ..., "reset_time": ...\x7d`. -/
structure RateEntry where
  count : Nat
  reset_time : DateTime
deriving DecidableEq

/-- The mutable state of a `RateLimiter`: its `requests` dict. -/
structure RateLimiterState where
  requests : List (String × RateEntry)
deriving DecidableEq

/-- `RateLimiter.check_rate_limit` (security.py lines 37-52), with the
current time `now` made explicit.  Returns the boolean result paired with
the updated limiter state. -/
def check_rate_limit (now : DateTime) (api_key : String)
    (api_keys : List (String × APIKeyModel)) (st : RateLimiterState) :
    Bool × RateLimiterState :=
  match lookupAssoc api_keys api_key with
  | none => (false, st)
  | some user_data =>
      let current_month := now.monthFloor
      let entry0 :=
        match lookupAssoc st.requests api_key with
        | none => { count := 0, reset_time := current_month : RateEntry }
        | some e => e
      let entry1 :=
        if entry0.reset_time.lt current_month then
          { count := 0, reset_time := current_month : RateEntry }
        else entry0
      let entry2 := { entry1 with count := entry1.count + 1 }
      (decide (entry2.count ≤ limits user_data.plan),
       ⟨insertAssoc st.requests api_key entry2⟩)

/-- The mutable state of an `APIKeyManager`: its `api_keys` dict. -/
structure APIKeyManagerState where
  api_keys : List (String × APIKeyModel)
deriving DecidableEq

/-- `APIKeyManager.generate_api_key` (security.py lines 59-72), with the
random `token_urlsafe(32)` output and the current time made explicit. -/
def generate_api_key (token : String) (now : DateTime) (user_id : String)
    (plan : PlanTier) (st : APIKeyManagerState) : String × APIKeyManagerState :=
  let api_key := "umapi_" ++ token
  (api_key,
   ⟨insertAssoc st.api_keys api_key
     { key := api_key, user_id := user_id, plan := plan,
       created_at := now, is_active := true, last_used := none }⟩)

/-- `APIKeyManager.validate_api_key` (security.py lines 74-84): `none` when
the key is absent or inactive; otherwise stamps `last_used` and returns the
record. -/
def validate_api_key (now : DateTime) (api_key : String)
    (st : APIKeyManagerState) : Option APIKeyModel × APIKeyManagerState :=
  match lookupAssoc st.api_keys api_key with
  | none => (none, st)
  | some key_data =>
      if key_data.is_active = false then (none, st)
      else
        let updated := { key_data with last_used := some now }
        (some updated, ⟨insertAssoc st.api_keys api_key updated⟩)

/-- `APIKeyManager.deactivate_api_key` (security.py lines 86-91). -/
def deactivate_api_key (api_key : String) (st : APIKeyManagerState) :
    Bool × APIKeyManagerState :=
  match lookupAssoc st.api_keys api_key with
  | none => (false, st)
  | some key_data =>
      (true, ⟨insertAssoc st.api_keys api_key { key_data with is_active := false }⟩)

/-- A raised `HTTPException`: status code and detail string. -/
structure HTTPError where
  status_code : Nat
  detail : String
deriving DecidableEq

/-- `get_api_key` (main.py lines 123-149).  The `X-API-Key` header value is
`none` when the header is missing (`APIKeyHeader` with `auto_error=False`
yields `None`); Python's `if not api_key_header` is true for both `None`
and the empty string. -/
def get_api_key (now : DateTime) (header : Option String)
    (st : APIKeyManagerState) : Except HTTPError APIKeyModel × APIKeyManagerState :=
  match header with
  | none => (Except.error ⟨401, "API Key header is missing"⟩, st)
  | some h =>
      if h = "" then (Except.error ⟨401, "API Key header is missing"⟩, st)
      else
        match validate_api_key now h st with
        | (none, st') => (Except.error ⟨403, "Invalid API Key"⟩, st')
        | (some key_data, st') => (Except.ok key_data, st')

/-- `Location` from `app/models.py`. -/
structure Location where
  latitude : ℚ
  longitude : ℚ
  altitude : ℚ
  location_type : String
deriving DecidableEq

/-- `SampleData` from `app/models.py`. -/
structure SampleData where
  sample_id : String
  timestamp : DateTime
  location : Location
  temperature : ℚ
  humidity : ℚ
  metadata : List (String × String)
deriving DecidableEq

/-- `AnalysisResult` from `app/models.py`; `health_indicators` keeps the
insertion order of the Python dict literal. -/
structure AnalysisResult where
  sample_id : String
  biodiversity_index : ℚ
  dominant_species : List String
  health_indicators : List (String × ℚ)
  recommendations : List String
deriving DecidableEq

/-- The four `np.random.uniform` draws consumed by
`analyze_microbiome_sample`, each as a unit-interval coordinate. -/
structure RandomDraws where
  r1 : ℚ
  r2 : ℚ
  r3 : ℚ
  r4 : ℚ
deriving DecidableEq

/-- `np.random.uniform(lo, hi)` applied to a unit-interval draw `r`. -/
def uniform (lo hi r : ℚ) : ℚ := lo + (hi - lo) * r

/-- `analyze_microbiome_sample` (analysis.py lines 5-31), with the random
draws made explicit. -/
def analyze_microbiome_sample (rng : RandomDraws) (sample : SampleData) :
    AnalysisResult :=
  let biodiversity := uniform (1/2) 1 rng.r1
  let temp_factor := 1 - |sample.temperature - 20| / 30
  let humidity_factor := 1 - |sample.humidity - 60| / 60
  { sample_id := sample.sample_id
    biodiversity_index := biodiversity
    dominant_species := ["Lactobacillus", "Bifidobacterium", "Bacillus subtilis"]
    health_indicators :=
      [("air_quality", uniform 60 100 rng.r2 * temp_factor),
       ("pathogen_risk", uniform 0 10 rng.r3 * (1 - humidity_factor)),
       ("environmental_stress", uniform 0 100 rng.r4 * (1 - biodiversity))]
    recommendations :=
      ["Increase green spaces", "Improve ventilation", "Monitor humidity levels"] }

/-- The global `stats` dict of main.py (lines 91-94). -/
structure Stats where
  total_samples_analyzed : Nat
  last_analysis : Option DateTime
deriving DecidableEq

/-- The `analyze_sample` endpoint (main.py lines 183-231), after `get_api_key`
has produced the validated `api_key` record: checks the rate limit, and on
success runs the analysis and updates the global stats.  Encryption and
security logging have no effect on the modelled observables. -/
def analyze_sample (now : DateTime) (rng : RandomDraws) (data : SampleData)
    (api_key : APIKeyModel) (keys : List (String × APIKeyModel))
    (rl : RateLimiterState) (stats : Stats) :
    Except HTTPError AnalysisResult × RateLimiterState × Stats :=
  match check_rate_limit now api_key.key keys rl with
  | (false, rl') => (Except.error ⟨429, "Rate limit exceeded"⟩, rl', stats)
  | (true, rl') =>
      (Except.ok (analyze_microbiome_sample rng data), rl',
       { total_samples_analyzed := stats.total_samples_analyzed + 1,
         last_analysis := some now })

/-- A verified Stripe event, as produced by `stripe.Webhook.construct_event`. -/
structure StripeEvent where
  type : String
deriving DecidableEq

/-- The `stripe_webhook` endpoint (main.py lines 324-354), parametrised by
the outcome of `stripe.Webhook.construct_event` (which raises on signature
failure, modelled as `Except.error` carrying the exception message). -/
def stripe_webhook (construct_event : Except String StripeEvent) :
    Except HTTPError (List (String × String)) :=
  match construct_event with
  | Except.error e => Except.error ⟨400, e⟩
  | Except.ok _ => Except.ok [("status", "success")]

/-- The HTTP status of a webhook outcome (FastAPI returns 200 for a plain
dict result). -/
def webhookStatus (r : Except HTTPError (List (String × String))) : Nat :=
  match r with
  | Except.error h => h.status_code
  | Except.ok _ => 200

/-- The body built by `global_exception_handler` (main.py lines 374-387). -/
structure GlobalErrorBody where
  error : String
  detail : String
  timestamp : DateTime
deriving DecidableEq

/-- `global_exception_handler` (main.py lines 374-387): builds a generic
error body from the exception message and the current time. -/
def global_exception_handler (now : DateTime) (exc : String) : GlobalErrorBody :=
  { error := "Internal Server Error", detail := exc, timestamp := now }

/-- The mutable state of a `PerformanceMonitor` (monitoring.py lines 50-55):
`response_times` and the `error_counts` dict keyed by status code. -/
structure PerformanceMonitorState where
  response_times : List ℚ
  error_counts : List (Nat × Nat)
deriving DecidableEq

/-- `PerformanceMonitor.record_request` (monitoring.py lines 57-65). -/
def record_request (duration : ℚ) (status_code : Nat)
    (st : PerformanceMonitorState) : PerformanceMonitorState :=
  { response_times := st.response_times ++ [duration]
    error_counts :=
      if 400 ≤ status_code then
        match lookupAssoc st.error_counts status_code with
        | some c => insertAssoc st.error_counts status_code (c + 1)
        | none => insertAssoc st.error_counts status_code 1
      else st.error_counts }

/-- `sum(self.error_counts.values())` from `get_error_rate`. -/
def errTotal (st : PerformanceMonitorState) : Nat :=
  (st.error_counts.map Prod.snd).sum

/-- `PerformanceMonitor.get_average_response_time` (monitoring.py
lines 67-71). -/
def get_average_response_time (st : PerformanceMonitorState) : ℚ :=
  if st.response_times = [] then 0
  else st.response_times.sum / (st.response_times.length : ℚ)

/-- `PerformanceMonitor.get_error_rate` (monitoring.py lines 73-79). -/
def get_error_rate (st : PerformanceMonitorState) : ℚ :=
  if st.response_times.length = 0 then 0
  else ((errTotal st : ℚ) / (st.response_times.length : ℚ)) * 100

/-- A fresh `PerformanceMonitor` after recording the given
(duration, status-code) requests in order. -/
def runMonitor (reqs : List (ℚ × Nat)) : PerformanceMonitorState :=
  reqs.foldl (fun st r => record_request r.1 r.2 st) ⟨[], []⟩

/-- A concrete active key record on the basic plan, for concrete evaluations. -/
def demoRecord : APIKeyModel :=
  { key := "k", user_id := "u", plan := .basic,
    created_at := ⟨2024, 5, 1, 0, 0, 0, 0⟩, is_active := true, last_used := none }

/-- A one-entry key map holding `demoRecord`. -/
def demoKeys : List (String × APIKeyModel) := [("k", demoRecord)]

/-- A concrete sample at the optimal temperature and humidity. -/
def demoSample : SampleData :=
  { sample_id := "s1", timestamp := ⟨2024, 5, 10, 12, 0, 0, 0⟩,
    location := { latitude := 0, longitude := 0, altitude := 0, location_type := "urban" },
    temperature := 20, humidity := 60, metadata := [] }

/-- A second concrete sample: equal temperature and humidity to `demoSample`,
every other field different. -/
def demoSampleB : SampleData :=
  { sample_id := "s2", timestamp := ⟨2023, 1, 1, 0, 0, 0, 0⟩,
    location := { latitude := 1, longitude := 2, altitude := 3, location_type := "park" },
    temperature := 20, humidity := 60, metadata := [("site", "b")] }

/-- Concrete midpoint random draws. -/
def demoDraws : RandomDraws := ⟨1/2, 1/2, 1/2, 1/2⟩

lemma lookupAssoc_insertAssoc_self {κ α : Type} [DecidableEq κ]
    (m : List (κ × α)) (k : κ) (v : α) :
    lookupAssoc (insertAssoc m k v) k = some v := by
  induction m with
  | nil => simp [insertAssoc, lookupAssoc]
  | cons p rest ih =>
      obtain ⟨k', v'⟩ := p
      by_cases hk : k' = k
      · simp [insertAssoc, hk, lookupAssoc]
      · simp [insertAssoc, hk, lookupAssoc, ih]

/-- C1: the claim says the request counter is reset to zero exactly when a
request arrives in a later calendar month than the stored reset time, never
within the same calendar month.  The code violates this: `replace(day=1,
hour=0, minute=0, second=0)` keeps the current microsecond, so a second
request in the same calendar month whose timestamp has a larger microsecond
makes the stored `reset_time` compare strictly less and resets the counter.
Here two requests on 2024-05-10 (same month, microseconds 100 then 200)
leave the counter at 1 instead of 2. -/
theorem check_rate_limit_resets_within_same_month :
    (check_rate_limit ⟨2024, 5, 10, 12, 0, 0, 100⟩ "k" demoKeys ⟨[]⟩).1 = true ∧
    lookupAssoc ((check_rate_limit ⟨2024, 5, 10, 12, 0, 0, 100⟩ "k" demoKeys ⟨[]⟩).2).requests "k"
      = some ⟨1, ⟨2024, 5, 1, 0, 0, 0, 100⟩⟩ ∧
    lookupAssoc ((check_rate_limit ⟨2024, 5, 10, 12, 30, 0, 200⟩ "k" demoKeys
        (check_rate_limit ⟨2024, 5, 10, 12, 0, 0, 100⟩ "k" demoKeys ⟨[]⟩).2).2).requests "k"
      = some ⟨1, ⟨2024, 5, 1, 0, 0, 0, 200⟩⟩ := by
  refine ⟨rfl, rfl, rfl⟩

/-- C4: a webhook payload failing signature verification (construct_event
raises) yields HTTP 400 carrying the exception message; a verified payload
yields the success body. -/
theorem stripe_webhook_status (e : String) (ev : StripeEvent) :
    stripe_webhook (Except.error e) = Except.error ⟨400, e⟩ ∧
    stripe_webhook (Except.ok ev) = Except.ok [("status", "success")] :=
  ⟨rfl, rfl⟩

/-- C4 witness: concrete failing and verified payload outcomes. -/
theorem stripe_webhook_status_witness :
    stripe_webhook (Except.error "No signature") = Except.error ⟨400, "No signature"⟩ ∧
    stripe_webhook (Except.ok ⟨"checkout.session.completed"⟩)
      = Except.ok [("status", "success")] :=
  stripe_webhook_status "No signature" ⟨"checkout.session.completed"⟩

/-- C5 counterexample: the claim says no endpoint maps an exception to any
status other than 500, but the Stripe webhook converts an exception raised
during signature verification into an HTTP 400 response. -/
theorem webhook_maps_exception_to_400_not_500 :
    stripe_webhook (Except.error "Invalid signature")
      = Except.error ⟨400, "Invalid signature"⟩ ∧
    webhookStatus (stripe_webhook (Except.error "Invalid signature")) ≠ 500 := by
  exact ⟨rfl, by decide⟩

/-- C5 amended: a generic catch-all handler builds a generic error body from
any exception, but endpoints do map exceptions to other status codes first:
the Stripe webhook converts every exception into an HTTP 400 response. -/
theorem endpoints_map_exceptions_to_specific_statuses (e : String)
    (now : DateTime) (exc : String) :
    webhookStatus (stripe_webhook (Except.error e)) = 400 ∧
    global_exception_handler now exc = ⟨"Internal Server Error", exc, now⟩ :=
  ⟨rfl, rfl⟩

/-- C5 amended witness: concrete exception messages. -/
theorem endpoints_map_exceptions_witness :
    webhookStatus (stripe_webhook (Except.error "boom")) = 400 ∧
    global_exception_handler ⟨2024, 5, 1, 0, 0, 0, 0⟩ "boom"
      = ⟨"Internal Server Error", "boom", ⟨2024, 5, 1, 0, 0, 0, 0⟩⟩ :=
  endpoints_map_exceptions_to_specific_statuses "boom" ⟨2024, 5, 1, 0, 0, 0, 0⟩ "boom"

/-- C8: a missing or empty `X-API-Key` header yields HTTP 401 with detail
"API Key header is missing", a status distinct from the 403 used for an
unknown or inactive key. -/
theorem missing_header_401 (now : DateTime) (st : APIKeyManagerState) :
    (get_api_key now none st).1 = Except.error ⟨401, "API Key header is missing"⟩ ∧
    (get_api_key now (some "") st).1 = Except.error ⟨401, "API Key header is missing"⟩ ∧
    (401 : Nat) ≠ 403 := by
  refine ⟨rfl, ?_, by decide⟩
  simp [get_api_key]

/-- C8 witness: concrete time and key-manager state. -/
theorem missing_header_401_witness :
    (get_api_key ⟨2024, 5, 1, 0, 0, 0, 0⟩ none ⟨demoKeys⟩).1
      = Except.error ⟨401, "API Key header is missing"⟩ ∧
    (get_api_key ⟨2024, 5, 1, 0, 0, 0, 0⟩ (some "") ⟨demoKeys⟩).1
      = Except.error ⟨401, "API Key header is missing"⟩ ∧
    (401 : Nat) ≠ 403 :=
  missing_header_401 ⟨2024, 5, 1, 0, 0, 0, 0⟩ ⟨demoKeys⟩

/-- C2: for a present (non-empty) `X-API-Key` header, authorization succeeds
exactly when the header value is a stored key whose `is_active` flag is true
(returning that record with `last_used` stamped), and otherwise — key absent
from the map, or present but inactive — `get_api_key` fails with HTTP 403
"Invalid API Key". -/
theorem get_api_key_authorizes_iff_active_key (now : DateTime) (h : String)
    (keys : List (String × APIKeyModel)) (hne : h ≠ "") :
    (get_api_key now (some h) ⟨keys⟩).1 =
      match lookupAssoc keys h with
      | some rec =>
          if rec.is_active then Except.ok { rec with last_used := some now }
          else Except.error ⟨403, "Invalid API Key"⟩
      | none => Except.error ⟨403, "Invalid API Key"⟩ := by
  cases hlk : lookupAssoc keys h with
  | none => simp [get_api_key, validate_api_key, hne, hlk]
  | some rec =>
      cases hact : rec.is_active <;>
        simp [get_api_key, validate_api_key, hne, hlk, hact]

/-- C2 witness: the demo key map at the stored key "k". -/
theorem get_api_key_authorizes_witness :
    "k" ≠ "" ∧
    (get_api_key ⟨2024, 5, 2, 0, 0, 0, 0⟩ (some "k") ⟨demoKeys⟩).1 =
      match lookupAssoc demoKeys "k" with
      | some rec =>
          if rec.is_active
          then Except.ok { rec with last_used := some ⟨2024, 5, 2, 0, 0, 0, 0⟩ }
          else Except.error ⟨403, "Invalid API Key"⟩
      | none => Except.error ⟨403, "Invalid API Key"⟩ :=
  ⟨by decide,
   get_api_key_authorizes_iff_active_key ⟨2024, 5, 2, 0, 0, 0, 0⟩ "k" demoKeys (by decide)⟩

/-- C6: the analysis result keeps the input's `sample_id`; its
`biodiversity_index` is the uniform draw from the interval from 0.5 to 1
(so it lies in that interval whenever the underlying unit draw is in the
unit interval); and `dominant_species` and `recommendations` are the two
fixed constant lists. -/
theorem analyze_result_shape (rng : RandomDraws) (sample : SampleData)
    (h0 : 0 ≤ rng.r1) (h1 : rng.r1 ≤ 1) :
    (analyze_microbiome_sample rng sample).sample_id = sample.sample_id ∧
    1/2 ≤ (analyze_microbiome_sample rng sample).biodiversity_index ∧
    (analyze_microbiome_sample rng sample).biodiversity_index ≤ 1 ∧
    (analyze_microbiome_sample rng sample).dominant_species =
      ["Lactobacillus", "Bifidobacterium", "Bacillus subtilis"] ∧
    (analyze_microbiome_sample rng sample).recommendations =
      ["Increase green spaces", "Improve ventilation", "Monitor humidity levels"] := by
  refine ⟨rfl, ?_, ?_, rfl, rfl⟩ <;>
    · simp only [analyze_microbiome_sample, uniform]
      linarith

/-- C6 witness: the midpoint draws on the demo sample. -/
theorem analyze_result_shape_witness :
    (0 : ℚ) ≤ demoDraws.r1 ∧ demoDraws.r1 ≤ 1 ∧
    ((analyze_microbiome_sample demoDraws demoSample).sample_id = demoSample.sample_id ∧
     1/2 ≤ (analyze_microbiome_sample demoDraws demoSample).biodiversity_index ∧
     (analyze_microbiome_sample demoDraws demoSample).biodiversity_index ≤ 1 ∧
     (analyze_microbiome_sample demoDraws demoSample).dominant_species =
       ["Lactobacillus", "Bifidobacterium", "Bacillus subtilis"] ∧
     (analyze_microbiome_sample demoDraws demoSample).recommendations =
       ["Increase green spaces", "Improve ventilation", "Monitor humidity levels"]) :=
  ⟨by norm_num [demoDraws], by norm_num [demoDraws],
   analyze_result_shape demoDraws demoSample (by norm_num [demoDraws])
     (by norm_num [demoDraws])⟩

/-- C7: with the same random draws, two samples with equal temperature and
equal humidity produce equal `health_indicators` — the analysis numbers are
modulated by no other field of the sample. -/
theorem health_indicators_depend_only_on_temp_humidity (rng : RandomDraws)
    (s1 s2 : SampleData) (ht : s1.temperature = s2.temperature)
    (hh : s1.humidity = s2.humidity) :
    (analyze_microbiome_sample rng s1).health_indicators =
      (analyze_microbiome_sample rng s2).health_indicators := by
  simp only [analyze_microbiome_sample, ht, hh]

/-- C7 witness: two demo samples equal only in temperature and humidity. -/
theorem health_indicators_witness :
    demoSample.temperature = demoSampleB.temperature ∧
    demoSample.humidity = demoSampleB.humidity ∧
    (analyze_microbiome_sample demoDraws demoSample).health_indicators =
      (analyze_microbiome_sample demoDraws demoSampleB).health_indicators :=
  ⟨rfl, rfl,
   health_indicators_depend_only_on_temp_humidity demoDraws demoSample demoSampleB rfl rfl⟩

/-- C3: when the validated key's stored monthly window is still current (the
stored reset time is not before the month floor of the request time) and its
counter has already reached the plan's quota, the analyze endpoint fails with
HTTP 429 "Rate limit exceeded", performs no analysis, and leaves the global
stats unchanged — only the limiter's counter is incremented. -/
theorem analyze_sample_quota_exhausted_429
    (now : DateTime) (rng : RandomDraws) (data : SampleData) (api_key : APIKeyModel)
    (keys : List (String × APIKeyModel)) (rl : RateLimiterState) (stats : Stats)
    (rec : APIKeyModel) (entry : RateEntry)
    (hk : lookupAssoc keys api_key.key = some rec)
    (he : lookupAssoc rl.requests api_key.key = some entry)
    (hcur : entry.reset_time.lt now.monthFloor = false)
    (hquota : limits rec.plan ≤ entry.count) :
    analyze_sample now rng data api_key keys rl stats =
      (Except.error ⟨429, "Rate limit exceeded"⟩,
       ⟨insertAssoc rl.requests api_key.key ⟨entry.count + 1, entry.reset_time⟩⟩,
       stats) := by
  have hlt : ¬ (entry.count + 1 ≤ limits rec.plan) := by omega
  simp [analyze_sample, check_rate_limit, hk, he, hcur, hlt]

/-- A limiter entry that has already used the whole basic-plan quota this
month. -/
def demoEntry : RateEntry := ⟨1000, ⟨2024, 5, 1, 0, 0, 0, 0⟩⟩

/-- A rate limiter whose entry for "k" is exhausted. -/
def demoRL : RateLimiterState := ⟨[("k", demoEntry)]⟩

/-- Concrete global stats. -/
def demoStats : Stats := ⟨7, none⟩

/-- C3 witness: the demo key over quota at a concrete request time. -/
theorem analyze_sample_429_witness :
    lookupAssoc demoKeys demoRecord.key = some demoRecord ∧
    lookupAssoc demoRL.requests demoRecord.key = some demoEntry ∧
    demoEntry.reset_time.lt (DateTime.monthFloor ⟨2024, 5, 10, 12, 0, 0, 0⟩) = false ∧
    limits demoRecord.plan ≤ demoEntry.count ∧
    analyze_sample ⟨2024, 5, 10, 12, 0, 0, 0⟩ demoDraws demoSample demoRecord
        demoKeys demoRL demoStats =
      (Except.error ⟨429, "Rate limit exceeded"⟩,
       ⟨insertAssoc demoRL.requests demoRecord.key
          ⟨demoEntry.count + 1, demoEntry.reset_time⟩⟩,
       demoStats) :=
  ⟨by decide, by decide, by decide, by decide,
   analyze_sample_quota_exhausted_429 ⟨2024, 5, 10, 12, 0, 0, 0⟩ demoDraws demoSample
     demoRecord demoKeys demoRL demoStats demoRecord demoEntry
     (by decide) (by decide) (by decide) (by decide)⟩

/-- C9: generating a key and validating it round-trips — the stored record
carries the generated key, the given user id and plan, and is active (with
`last_used` stamped by validation) — and after deactivating a stored key,
validating it returns none. -/
theorem generate_validate_roundtrip
    (token user_id : String) (plan : PlanTier) (now now2 now3 : DateTime)
    (st : APIKeyManagerState) (k2 : String) (rec : APIKeyModel)
    (hstored : lookupAssoc st.api_keys k2 = some rec) :
    (validate_api_key now2 (generate_api_key token now user_id plan st).1
        (generate_api_key token now user_id plan st).2).1 =
      some { key := "umapi_" ++ token, user_id := user_id, plan := plan,
             created_at := now, is_active := true, last_used := some now2 } ∧
    (validate_api_key now3 k2 (deactivate_api_key k2 st).2).1 = none := by
  constructor
  · simp [generate_api_key, validate_api_key, lookupAssoc_insertAssoc_self]
  · simp [deactivate_api_key, hstored, validate_api_key, lookupAssoc_insertAssoc_self]

/-- C9 witness: generate on top of the demo map, and deactivate its stored
key "k". -/
theorem generate_validate_roundtrip_witness :
    lookupAssoc (APIKeyManagerState.mk demoKeys).api_keys "k" = some demoRecord ∧
    ((validate_api_key ⟨2024, 5, 2, 0, 0, 0, 0⟩
        (generate_api_key "tok" ⟨2024, 5, 1, 0, 0, 0, 0⟩ "u2" .pro ⟨demoKeys⟩).1
        (generate_api_key "tok" ⟨2024, 5, 1, 0, 0, 0, 0⟩ "u2" .pro ⟨demoKeys⟩).2).1 =
      some { key := "umapi_" ++ "tok", user_id := "u2", plan := .pro,
             created_at := ⟨2024, 5, 1, 0, 0, 0, 0⟩, is_active := true,
             last_used := some ⟨2024, 5, 2, 0, 0, 0, 0⟩ } ∧
     (validate_api_key ⟨2024, 5, 3, 0, 0, 0, 0⟩ "k"
        (deactivate_api_key "k" ⟨demoKeys⟩).2).1 = none) :=
  ⟨by decide,
   generate_validate_roundtrip "tok" "u2" .pro ⟨2024, 5, 1, 0, 0, 0, 0⟩
     ⟨2024, 5, 2, 0, 0, 0, 0⟩ ⟨2024, 5, 3, 0, 0, 0, 0⟩ ⟨demoKeys⟩ "k" demoRecord
     (by decide)⟩

lemma snd_sum_insert_some {m : List (Nat × Nat)} {k c : Nat}
    (hl : lookupAssoc m k = some c) :
    ((insertAssoc m k (c + 1)).map Prod.snd).sum = (m.map Prod.snd).sum + 1 := by
  induction m with
  | nil => simp [lookupAssoc] at hl
  | cons p rest ih =>
      obtain ⟨k', v'⟩ := p
      by_cases hk : k' = k
      · subst hk
        simp [lookupAssoc] at hl
        subst hl
        simp [insertAssoc]
        omega
      · simp [lookupAssoc, hk] at hl
        simp [insertAssoc, hk, ih hl]
        omega

lemma snd_sum_insert_none {m : List (Nat × Nat)} {k : Nat}
    (hl : lookupAssoc m k = none) :
    ((insertAssoc m k 1).map Prod.snd).sum = (m.map Prod.snd).sum + 1 := by
  induction m with
  | nil => simp [insertAssoc]
  | cons p rest ih =>
      obtain ⟨k', v'⟩ := p
      by_cases hk : k' = k
      · simp [lookupAssoc, hk] at hl
      · simp [lookupAssoc, hk] at hl
        simp [insertAssoc, hk, ih hl]
        omega

lemma errTotal_record (d : ℚ) (s : Nat) (st : PerformanceMonitorState) :
    errTotal (record_request d s st) = errTotal st + (if 400 ≤ s then 1 else 0) := by
  by_cases h400 : 400 ≤ s
  · cases hl : lookupAssoc st.error_counts s with
    | some c => simp [errTotal, record_request, h400, hl, snd_sum_insert_some hl]
    | none => simp [errTotal, record_request, h400, hl, snd_sum_insert_none hl]
  · simp [errTotal, record_request, h400]

lemma runFrom_response (reqs : List (ℚ × Nat)) :
    ∀ st : PerformanceMonitorState,
      (reqs.foldl (fun st r => record_request r.1 r.2 st) st).response_times
        = st.response_times ++ reqs.map Prod.fst := by
  induction reqs with
  | nil => intro st; simp
  | cons r rest ih =>
      intro st
      rw [List.foldl_cons, ih]
      simp [record_request]

lemma runFrom_errTotal (reqs : List (ℚ × Nat)) :
    ∀ st : PerformanceMonitorState,
      errTotal (reqs.foldl (fun st r => record_request r.1 r.2 st) st)
        = errTotal st + (reqs.filter (fun r => 400 ≤ r.2)).length := by
  induction reqs with
  | nil => intro st; simp
  | cons r rest ih =>
      intro st
      rw [List.foldl_cons, ih]
      have hrec := errTotal_record r.1 r.2 st
      by_cases h : 400 ≤ r.2 <;> simp [List.filter, h, hrec] <;> omega

/-- C10: the performance getters are total — on an empty response-times list
both return 0 — and after recording a sequence of requests, the average is
the arithmetic mean of the recorded durations and the error rate is the
percentage of recorded requests whose status code is at least 400. -/
theorem performance_monitor_totals (reqs : List (ℚ × Nat))
    (ec : List (Nat × Nat)) (hne : reqs ≠ []) :
    get_average_response_time ⟨[], ec⟩ = 0 ∧
    get_error_rate ⟨[], ec⟩ = 0 ∧
    get_average_response_time (runMonitor reqs)
      = (reqs.map Prod.fst).sum / (reqs.length : ℚ) ∧
    get_error_rate (runMonitor reqs)
      = (((reqs.filter (fun r => 400 ≤ r.2)).length : ℚ) / (reqs.length : ℚ)) * 100 := by
  have hresp : (runMonitor reqs).response_times = reqs.map Prod.fst := by
    simpa using runFrom_response reqs ⟨[], []⟩
  have herr : errTotal (runMonitor reqs) = (reqs.filter (fun r => 400 ≤ r.2)).length := by
    simpa [errTotal] using runFrom_errTotal reqs ⟨[], []⟩
  have hmne : reqs.map Prod.fst ≠ [] := by
    simpa using hne
  have hlne : reqs.length ≠ 0 := by
    simpa [List.length_eq_zero] using hne
  refine ⟨by simp [get_average_response_time], by simp [get_error_rate], ?_, ?_⟩
  · simp [get_average_response_time, hresp, hmne]
  · simp [get_error_rate, hresp, hlne, herr]

/-- C10 witness: one success and one error request. -/
theorem performance_monitor_totals_witness :
    ([((1 : ℚ), 200), ((2 : ℚ), 500)] : List (ℚ × Nat)) ≠ [] ∧
    (get_average_response_time ⟨[], [(500, 3)]⟩ = 0 ∧
     get_error_rate ⟨[], [(500, 3)]⟩ = 0 ∧
     get_average_response_time (runMonitor [((1 : ℚ), 200), ((2 : ℚ), 500)])
       = (([((1 : ℚ), 200), ((2 : ℚ), 500)] : List (ℚ × Nat)).map Prod.fst).sum
           / (([((1 : ℚ), 200), ((2 : ℚ), 500)] : List (ℚ × Nat)).length : ℚ) ∧
     get_error_rate (runMonitor [((1 : ℚ), 200), ((2 : ℚ), 500)])
       = (((([((1 : ℚ), 200), ((2 : ℚ), 500)] : List (ℚ × Nat)).filter
             (fun r => 400 ≤ r.2)).length : ℚ)
           / (([((1 : ℚ), 200), ((2 : ℚ), 500)] : List (ℚ × Nat)).length : ℚ)) * 100) :=
  ⟨by decide,
   performance_monitor_totals [((1 : ℚ), 200), ((2 : ℚ), 500)] [(500, 3)] (by decide)⟩

end UrbanMicrobiome
